import Mathlib

/- Verification of the batch conversion worker in image_converter_gui.py
   (class ConversionWorker, lines 27 to 151). The worker fields and the
   run_conversion method are embedded as pure Lean functions. Filesystem
   and codec effects are abstracted by an environment record fixing, for
   each loop index, the outcome of the per-file try block, the outcome of
   output-directory creation, and the first poll at which the cancellation
   flag reads False. The per-file image pipeline (mode normalization,
   resize, save parameters, lines 100 to 127) is embedded separately as a
   pure function on an abstract image. -/

/-- Mirror of the constructor fields of ConversionWorker (lines 38 to 44). -/
structure Worker where
  image_files : List String
  size_option : String
  quality_value : Nat
  output_folder : String

/-- Outcome of the per-file try block (lines 100 to 145): either the body
    runs to completion, or exactly one of the five except clauses catches
    (FileNotFoundError, PermissionError, UnidentifiedImageError, OSError,
    Exception, in that order from specific to general). -/
inductive PerFile where
  | success
  | errFileNotFound
  | errPermission
  | errUnidentified
  | errOS (msg : String)
  | errOther (msg : String)
deriving DecidableEq

/-- Environment abstracting the effectful parts of one run. cancelAt gives
    the first poll number at which the _is_running flag reads False; the
    flag is only ever cleared by stop (lines 46 to 47), never set again,
    so reads are monotone: poll i reads False exactly when cancelAt is
    some c with c at most i. mkdirError is the OSError raised by
    os.makedirs (line 73), if any. fileResult i abstracts whether the
    try block for loop index i completes or which except clause catches. -/
structure Env where
  mkdirError : Option String
  fileResult : Nat → PerFile
  cancelAt : Option Nat

/-- Events emitted through the Qt signals progress, status_update, error
    and finished (lines 33 to 36), listed in emission order. -/
inductive Event where
  | progress (percent : Nat)
  | status (message : String)
  | error (message : String)
  | finished (succeeded failed : Nat)
deriving DecidableEq

/-- Fuel-based floor of the base-two logarithm of a natural number,
    written with structural recursion so that the kernel can evaluate it;
    fuel 1000 covers every input below 2 to the power 1000. -/
def log2fuel : Nat → Nat → Nat
  | 0, _ => 0
  | fuel + 1, n => if 2 ≤ n then log2fuel fuel (n / 2) + 1 else 0

/-- Round the fraction a / b (b positive) to the nearest natural number,
    ties to even. -/
def rndNE (a b : Nat) : Nat :=
  let q := a / b
  let r := a % b
  if 2 * r < b then q
  else if b < 2 * r then q + 1
  else if q % 2 = 0 then q else q + 1

/-- One IEEE 754 binary64 rounding of the positive fraction a / b: the
    result is the pair (m, E) with the rounded value equal to m times 2
    to the power E, where m is the 53-bit significand obtained by round
    to nearest, ties to even. Scaling the fraction by 2 to the power 200
    makes its binary logarithm readable off an integer, valid whenever
    a / b lies between 2 to the power minus 200 and 2 to the power 800. -/
def flStep (a b : Nat) : Nat × ℤ :=
  let L : ℤ := (log2fuel 1000 (a * 2 ^ 200 / b) : ℤ) - 200
  let E : ℤ := L - 52
  let m :=
    if 0 ≤ E then rndNE a (b * 2 ^ E.toNat)
    else rndNE (a * 2 ^ (-E).toNat) b
  (m, E)

/-- Line 91: progress_percent = int((i / num_images) * 100). CPython
    evaluates i / num_images as a correctly rounded binary64 division,
    multiplies by 100 with one further correctly rounded binary64
    operation, and int truncates toward zero (the value is nonnegative,
    so truncation is division flooring). Both roundings are modelled
    exactly by flStep; multiplying the first significand by 100 keeps
    the first exponent and is then renormalized by the second flStep. -/
def pyProgress (i n : Nat) : Nat :=
  if i = 0 ∨ n = 0 then 0
  else
    let s1 := flStep i n
    let a2 := s1.1 * 100
    let s2 :=
      if 0 ≤ s1.2 then flStep (a2 * 2 ^ s1.2.toNat) 1
      else flStep a2 (2 ^ (-s1.2).toNat)
    if 0 ≤ s2.2 then s2.1 * 2 ^ s2.2.toNat
    else s2.1 / 2 ^ (-s2.2).toNat

/-- os.path.basename for slash-separated paths (line 93): the characters
    after the last slash, written as a fold so the kernel can evaluate it. -/
def basename (p : String) : String :=
  String.mk (p.data.foldl (fun acc c => if c = '/' then [] else acc ++ [c]) [])

/-- Status text of line 94. -/
def processingMsg (i n : Nat) (bn : String) : String :=
  "Processing (" ++ toString (i + 1) ++ "/" ++ toString n ++ "): " ++ bn

/-- Status events produced by the except clauses (lines 131 to 145); the
    success branch emits none. The source builds these messages with
    f-strings; they are reproduced here by concatenation. -/
def errEvents (r : PerFile) (bn : String) : List Event :=
  match r with
  | .success => []
  | .errFileNotFound => [Event.status ("Error: File not found - " ++ bn)]
  | .errPermission => [Event.status ("Error: Permission denied - " ++ bn)]
  | .errUnidentified => [Event.status ("Error: Cannot identify image - " ++ bn)]
  | .errOS m => [Event.status ("Error processing " ++ bn ++ ": " ++ m)]
  | .errOther m => [Event.status ("Unexpected error processing " ++ bn ++ ": " ++ m)]

/-- success_count increment of one loop iteration (line 129). -/
def succDelta (r : PerFile) : Nat :=
  match r with
  | .success => 1
  | _ => 0

/-- fail_count increment of one loop iteration (lines 133, 136, 139, 142, 145). -/
def failDelta (r : PerFile) : Nat :=
  match r with
  | .success => 0
  | _ => 1

/-- Events of one loop iteration that passed the cancellation poll
    (lines 91 to 145): the progress emit, the processing status, and the
    error status of the except clause that caught, if any. -/
def fileEvents (n i : Nat) (file : String) (r : PerFile) : List Event :=
  [Event.progress (pyProgress i n), Event.status (processingMsg i n (basename file))]
    ++ errEvents r (basename file)

/-- Value read from the _is_running flag at poll number i. -/
def pollCancelled (cancelAt : Option Nat) (i : Nat) : Bool :=
  match cancelAt with
  | none => false
  | some c => decide (c ≤ i)

/-- Result of the for loop: emitted events, the two counters, and a ghost
    counter of iterations that passed the cancellation poll. -/
structure LoopRes where
  events : List Event
  succ : Nat
  fail : Nat
  attempts : Nat

/-- The for loop of lines 86 to 147, processing the given suffix of the
    file list whose first element has loop index i. Each iteration first
    polls the cancellation flag (lines 87 to 89), then emits progress and
    status, then runs the try block, incrementing exactly one counter. -/
def runLoop (env : Env) (n : Nat) : List String → Nat → LoopRes
  | [], _ => ⟨[], 0, 0, 0⟩
  | f :: rest, i =>
    if pollCancelled env.cancelAt i then
      ⟨[Event.status "Conversion cancelled."], 0, 0, 0⟩
    else
      let r := env.fileResult i
      let res := runLoop env n rest (i + 1)
      ⟨fileEvents n i f r ++ res.events,
       succDelta r + res.succ, failDelta r + res.fail, 1 + res.attempts⟩

/-- run_conversion (lines 49 to 151) as the list of emitted events. The
    source message for a failed makedirs call wraps the folder name in
    single quotation marks; those two quotation marks are omitted here. -/
def run_conversion (w : Worker) (env : Env) : List Event :=
  if w.image_files = [] then
    [Event.error "No images selected for conversion.", Event.finished 0 0]
  else
    match env.mkdirError with
    | some e =>
        [Event.error ("Could not create output folder " ++ w.output_folder ++ ": " ++ e),
         Event.finished 0 w.image_files.length]
    | none =>
        let n := w.image_files.length
        let res := runLoop env n w.image_files 0
        res.events
          ++ (if pollCancelled env.cancelAt n then [] else [Event.progress 100])
          ++ [Event.finished res.succ res.fail]

/-- PIL image abstracted to its pixel mode and dimensions. -/
structure Img where
  mode : String
  width : Nat
  height : Nat

/-- Lines 56 to 62: the resize factor, defaulting to 1.0 for any size
    option other than Small, Medium and Large. -/
def resize_factor (size_option : String) : ℚ :=
  if size_option = "Small" then 1 / 2
  else if size_option = "Medium" then 3 / 4
  else if size_option = "Large" then 3 / 2
  else 1

/-- Lines 104 to 108: pixel-mode normalization before saving. -/
def convertedMode (mode : String) (quality_value : Nat) : String :=
  if (mode = "P" ∨ mode = "L" ∨ mode = "LA") ∧ quality_value < 100 then "RGBA"
  else if mode = "CMYK" then "RGB"
  else mode

/-- Lines 112 to 116: int truncates the float product toward zero and the
    result is clamped to at least one pixel per dimension. The binary64
    products width times 0.5, 0.75 or 1.5 are exact for every dimension a
    PIL image can have, so exact rational arithmetic is faithful here. -/
def newDim (d : Nat) (f : ℚ) : Nat :=
  max 1 (⌊(d : ℚ) * f⌋).toNat

/-- Arguments passed to Image.save (lines 122 to 127). -/
structure SaveParams where
  quality : Nat
  lossless : Bool
deriving DecidableEq

/-- Lines 100 to 127 as a pure function: mode normalization, conditional
    resize (skipped exactly when the factor is 1.0), and the save
    parameters, with lossless true exactly when quality equals 100
    (line 120). -/
def processImage (img : Img) (size_option : String) (quality_value : Nat) :
    Img × SaveParams :=
  let f := resize_factor size_option
  let mode2 := convertedMode img.mode quality_value
  let img2 : Img :=
    if f ≠ 1 then
      ⟨mode2, newDim img.width f, newDim img.height f⟩
    else
      ⟨mode2, img.width, img.height⟩
  (img2, ⟨quality_value, quality_value == 100⟩)

/-- A run environment in which directory creation succeeds, every file
    converts, and cancellation never happens. -/
def env0 : Env := ⟨none, fun _ => PerFile.success, none⟩

/-- A three-file worker used in concrete instantiations. -/
def w3 : Worker := ⟨["a.png", "b.png", "c.png"], "Original", 90, "out"⟩

/-- A worker holding no input files. -/
def wEmpty : Worker := ⟨[], "Original", 90, "out"⟩

/-- A fifty-file worker, used to exhibit the binary64 progress rounding. -/
def w50 : Worker := ⟨List.replicate 50 "img.png", "Original", 90, "out"⟩

/-- An environment in which os.makedirs raises. -/
def envBad : Env := ⟨some "Permission denied", fun _ => PerFile.success, none⟩

/-- An environment in which every per-file attempt raises FileNotFoundError. -/
def envErr : Env := ⟨none, fun _ => PerFile.errFileNotFound, none⟩

/-- An environment whose cancellation flag first reads False at poll 2. -/
def envCancel : Env := ⟨none, fun _ => PerFile.success, some 2⟩

/- Helper lemmas shared by the claim theorems. -/

lemma getLast_append_one (l : List Event) (a : Event) :
    (l ++ [a]).getLast? = some a := by
  rw [List.getLast?_concat]

lemma run_conversion_loop (w : Worker) (env : Env)
    (h1 : w.image_files ≠ []) (h2 : env.mkdirError = none) :
    run_conversion w env
      = (runLoop env w.image_files.length w.image_files 0).events
          ++ (if pollCancelled env.cancelAt w.image_files.length then []
              else [Event.progress 100])
          ++ [Event.finished
                (runLoop env w.image_files.length w.image_files 0).succ
                (runLoop env w.image_files.length w.image_files 0).fail] := by
  unfold run_conversion
  rw [if_neg h1, h2]

lemma deltas_of_err (r : PerFile) (h : r ≠ PerFile.success) (bn : String) :
    succDelta r = 0 ∧ failDelta r = 1 ∧ (errEvents r bn).length = 1 := by
  cases r <;> simp_all [succDelta, failDelta, errEvents]

lemma succDelta_add_failDelta (r : PerFile) : succDelta r + failDelta r = 1 := by
  cases r <;> rfl

lemma runLoop_sum (env : Env) (n : Nat) :
    ∀ (files : List String) (i : Nat),
      (runLoop env n files i).succ + (runLoop env n files i).fail
        = (runLoop env n files i).attempts := by
  intro files
  induction files with
  | nil => intro i; simp [runLoop]
  | cons f rest ih =>
    intro i
    by_cases hp : pollCancelled env.cancelAt i = true
    · simp [runLoop, hp]
    · rw [Bool.not_eq_true] at hp
      have h1 := ih (i + 1)
      have h2 := succDelta_add_failDelta (env.fileResult i)
      simp only [runLoop, hp, Bool.false_eq_true, if_false]
      omega

lemma runLoop_attempts_none (env : Env) (n : Nat) (h : env.cancelAt = none) :
    ∀ (files : List String) (i : Nat),
      (runLoop env n files i).attempts = files.length := by
  intro files
  induction files with
  | nil => intro i; simp [runLoop]
  | cons f rest ih =>
    intro i
    have hp : pollCancelled env.cancelAt i = false := by
      simp [pollCancelled, h]
    simp only [runLoop, hp, Bool.false_eq_true, if_false, List.length_cons]
    rw [ih (i + 1)]
    omega

lemma runLoop_attempts_some (env : Env) (n c : Nat) (h : env.cancelAt = some c) :
    ∀ (files : List String) (i : Nat),
      (runLoop env n files i).attempts = min files.length (c - i) := by
  intro files
  induction files with
  | nil => intro i; simp [runLoop]
  | cons f rest ih =>
    intro i
    by_cases hc : c ≤ i
    · have hp : pollCancelled env.cancelAt i = true := by
        simp [pollCancelled, h, hc]
      simp only [runLoop, hp, if_true, List.length_cons]
      omega
    · have hp : pollCancelled env.cancelAt i = false := by
        simp only [pollCancelled, h, decide_eq_false_iff_not]
        omega
      simp only [runLoop, hp, Bool.false_eq_true, if_false, List.length_cons]
      rw [ih (i + 1)]
      omega

lemma runLoop_cancel_split (env : Env) (n c : Nat) (h : env.cancelAt = some c) :
    ∀ (files : List String) (i : Nat), i ≤ c → c - i < files.length →
      (runLoop env n files i).events
          = (runLoop env n (files.take (c - i)) i).events
              ++ [Event.status "Conversion cancelled."]
        ∧ (runLoop env n files i).succ = (runLoop env n (files.take (c - i)) i).succ
        ∧ (runLoop env n files i).fail = (runLoop env n (files.take (c - i)) i).fail
        ∧ (runLoop env n files i).attempts
            = (runLoop env n (files.take (c - i)) i).attempts := by
  intro files
  induction files with
  | nil => intro i hi hlen; simp at hlen
  | cons f rest ih =>
    intro i hi hlen
    by_cases hc : c ≤ i
    · have hp : pollCancelled env.cancelAt i = true := by
        simp [pollCancelled, h, hc]
      have h0 : c - i = 0 := by omega
      simp [runLoop, hp, h0]
    · have hp : pollCancelled env.cancelAt i = false := by
        simp only [pollCancelled, h, decide_eq_false_iff_not]
        omega
      have hii : i + 1 ≤ c := by omega
      have hlen2 : c - (i + 1) < rest.length := by
        simp only [List.length_cons] at hlen
        omega
      obtain ⟨e1, e2, e3, e4⟩ := ih (i + 1) hii hlen2
      have htake : (f :: rest).take (c - i) = f :: rest.take (c - (i + 1)) := by
        have hsub : c - i = (c - (i + 1)) + 1 := by omega
        rw [hsub, List.take_succ_cons]
      rw [htake]
      simp only [runLoop, hp, Bool.false_eq_true, if_false]
      exact ⟨by rw [e1, List.append_assoc], by rw [e2], by rw [e3], by rw [e4]⟩

lemma processImage_mode (img : Img) (so : String) (q : Nat) :
    (processImage img so q).1.mode = convertedMode img.mode q := by
  unfold processImage
  dsimp only
  split <;> rfl

lemma processImage_save (img : Img) (so : String) (q : Nat) :
    (processImage img so q).2 = ⟨q, q == 100⟩ := rfl

lemma rf_small : resize_factor "Small" = 1 / 2 := by rfl

lemma rf_medium : resize_factor "Medium" = 3 / 4 := by rfl

lemma rf_large : resize_factor "Large" = 3 / 2 := by rfl

lemma rf_original : resize_factor "Original" = 1 := by rfl

/- Claim theorems. -/

/-- Claim C1: for every non-empty input list with a writable output
    directory, the completion event is the last event emitted and carries
    counts with succeeded plus failed equal to the number of attempted
    files (each iteration past the poll increments exactly one counter),
    and the number attempted equals the total input count whenever no
    cancellation occurred. -/
theorem C1_run_counts (w : Worker) (env : Env)
    (h1 : w.image_files ≠ []) (h2 : env.mkdirError = none) :
    (run_conversion w env).getLast?
        = some (Event.finished
            (runLoop env w.image_files.length w.image_files 0).succ
            (runLoop env w.image_files.length w.image_files 0).fail)
      ∧ (runLoop env w.image_files.length w.image_files 0).succ
          + (runLoop env w.image_files.length w.image_files 0).fail
          = (runLoop env w.image_files.length w.image_files 0).attempts
      ∧ (env.cancelAt = none →
          (runLoop env w.image_files.length w.image_files 0).attempts
            = w.image_files.length) := by
  refine ⟨?_, runLoop_sum env _ _ _, fun hc => runLoop_attempts_none env _ hc _ _⟩
  rw [run_conversion_loop w env h1 h2]
  exact getLast_append_one _ _

/-- Witness for C1 at a concrete three-file worker. -/
theorem C1_run_counts_w :
    (run_conversion w3 env0).getLast?
        = some (Event.finished
            (runLoop env0 w3.image_files.length w3.image_files 0).succ
            (runLoop env0 w3.image_files.length w3.image_files 0).fail)
      ∧ (runLoop env0 w3.image_files.length w3.image_files 0).succ
          + (runLoop env0 w3.image_files.length w3.image_files 0).fail
          = (runLoop env0 w3.image_files.length w3.image_files 0).attempts
      ∧ (env0.cancelAt = none →
          (runLoop env0 w3.image_files.length w3.image_files 0).attempts
            = w3.image_files.length) :=
  C1_run_counts w3 env0 (by decide) rfl

/-- Claim C4: if the cancellation flag is first observed cleared at poll
    k plus 1 (set after file k started and before file k plus 1 began)
    and file k plus 1 exists, then the run consists of the events of the
    first k plus 1 files followed by the cancellation status and the
    completion event, exactly k plus 1 files are attempted, and the
    completion counts satisfy succeeded plus failed equal to k plus 1
    (hence at most k plus 1); later files are neither attempted nor
    counted. -/
theorem C4_cancellation (w : Worker) (env : Env) (k : Nat)
    (h2 : env.mkdirError = none) (hc : env.cancelAt = some (k + 1))
    (hk : k + 1 < w.image_files.length) :
    run_conversion w env
        = (runLoop env w.image_files.length (w.image_files.take (k + 1)) 0).events
            ++ [Event.status "Conversion cancelled.",
                Event.finished
                  (runLoop env w.image_files.length (w.image_files.take (k + 1)) 0).succ
                  (runLoop env w.image_files.length (w.image_files.take (k + 1)) 0).fail]
      ∧ (runLoop env w.image_files.length (w.image_files.take (k + 1)) 0).succ
          + (runLoop env w.image_files.length (w.image_files.take (k + 1)) 0).fail
          = k + 1
      ∧ (runLoop env w.image_files.length (w.image_files.take (k + 1)) 0).attempts
          = k + 1 := by
  have h1 : w.image_files ≠ [] := by
    intro hnil
    rw [hnil] at hk
    simp at hk
  have hatt : (runLoop env w.image_files.length (w.image_files.take (k + 1)) 0).attempts
      = k + 1 := by
    rw [runLoop_attempts_some env w.image_files.length (k + 1) hc]
    rw [List.length_take]
    omega
  have hsum := runLoop_sum env w.image_files.length (w.image_files.take (k + 1)) 0
  obtain ⟨e1, e2, e3, _⟩ :=
    runLoop_cancel_split env w.image_files.length (k + 1) hc w.image_files 0
      (by omega) (by omega)
  refine ⟨?_, by omega, hatt⟩
  have hpoll : pollCancelled env.cancelAt w.image_files.length = true := by
    simp only [pollCancelled, hc, decide_eq_true_eq]
    omega
  rw [run_conversion_loop w env h1 h2, e1, e2, e3]
  simp [hpoll, Nat.sub_zero]

/-- Witness for C4 at a three-file worker whose flag clears at poll 2. -/
theorem C4_cancellation_w :
    run_conversion w3 envCancel
        = (runLoop envCancel w3.image_files.length (w3.image_files.take 2) 0).events
            ++ [Event.status "Conversion cancelled.",
                Event.finished
                  (runLoop envCancel w3.image_files.length (w3.image_files.take 2) 0).succ
                  (runLoop envCancel w3.image_files.length (w3.image_files.take 2) 0).fail]
      ∧ (runLoop envCancel w3.image_files.length (w3.image_files.take 2) 0).succ
          + (runLoop envCancel w3.image_files.length (w3.image_files.take 2) 0).fail
          = 2
      ∧ (runLoop envCancel w3.image_files.length (w3.image_files.take 2) 0).attempts
          = 2 :=
  C4_cancellation w3 envCancel 1 rfl rfl (by decide)

/-- Claim C5: for a non-empty input list, when output-directory creation
    fails the run emits exactly one fatal error event whose message
    carries the underlying cause, followed by a completion event with
    zero successes and the full input count as failures, and nothing
    else: no per-file event is emitted and no file is attempted. -/
theorem C5_mkdir_failure (w : Worker) (env : Env) (e : String)
    (h1 : w.image_files ≠ []) (h2 : env.mkdirError = some e) :
    run_conversion w env
      = [Event.error ("Could not create output folder " ++ w.output_folder ++ ": " ++ e),
         Event.finished 0 w.image_files.length] := by
  unfold run_conversion
  rw [if_neg h1, h2]

/-- Witness for C5 at a concrete worker and makedirs failure. -/
theorem C5_mkdir_failure_w :
    run_conversion w3 envBad
      = [Event.error ("Could not create output folder " ++ w3.output_folder
           ++ ": " ++ "Permission denied"),
         Event.finished 0 w3.image_files.length] :=
  C5_mkdir_failure w3 envBad "Permission denied" (by decide) rfl

/-- Claim C6 counterexample: on the empty input list the code emits the
    error message "No images selected for conversion.", which is not the
    string "no images selected" stated by the claim. -/
theorem C6_cex :
    run_conversion wEmpty env0
        = [Event.error "No images selected for conversion.", Event.finished 0 0]
      ∧ "No images selected for conversion." ≠ "no images selected" :=
  ⟨rfl, by decide⟩

/-- Claim C6 as amended: for the empty input file list, run_conversion
    immediately emits an error event whose message is the exact source
    text "No images selected for conversion." and a completion event with
    zero succeeded and zero failed, and nothing else. -/
theorem C6_empty_run (w : Worker) (env : Env) (h : w.image_files = []) :
    run_conversion w env
      = [Event.error "No images selected for conversion.", Event.finished 0 0] := by
  unfold run_conversion
  rw [if_pos h]

/-- Witness for C6 at the empty worker. -/
theorem C6_empty_run_w :
    run_conversion wEmpty env0
      = [Event.error "No images selected for conversion.", Event.finished 0 0] :=
  C6_empty_run wEmpty env0 rfl

/-- Claim C7: a failing per-file attempt at loop index i is caught by one
    of the five except clauses (the taxonomy enumerated by PerFile),
    produces exactly one status event built from the file basename,
    increments the failure counter by exactly one and the success counter
    not at all, and the loop continues with the remaining files from
    index i plus 1; no per-file failure escapes the loop. -/
theorem C7_per_file_errors (env : Env) (n i : Nat) (f : String) (rest : List String)
    (hp : pollCancelled env.cancelAt i = false)
    (hr : env.fileResult i ≠ PerFile.success) :
    runLoop env n (f :: rest) i
        = ⟨fileEvents n i f (env.fileResult i) ++ (runLoop env n rest (i + 1)).events,
           (runLoop env n rest (i + 1)).succ,
           1 + (runLoop env n rest (i + 1)).fail,
           1 + (runLoop env n rest (i + 1)).attempts⟩
      ∧ (errEvents (env.fileResult i) (basename f)).length = 1
      ∧ fileEvents n i f (env.fileResult i)
          = [Event.progress (pyProgress i n),
             Event.status (processingMsg i n (basename f))]
              ++ errEvents (env.fileResult i) (basename f) := by
  obtain ⟨d1, d2, d3⟩ := deltas_of_err (env.fileResult i) hr (basename f)
  refine ⟨?_, d3, rfl⟩
  simp only [runLoop, hp, Bool.false_eq_true, if_false]
  rw [d1, d2]
  simp

/-- Witness for C7 at a concrete failing file with a directory prefix in
    its path. -/
theorem C7_per_file_errors_w :
    runLoop envErr 2 ["d/a.png", "b.png"] 0
        = ⟨fileEvents 2 0 "d/a.png" (envErr.fileResult 0)
             ++ (runLoop envErr 2 ["b.png"] 1).events,
           (runLoop envErr 2 ["b.png"] 1).succ,
           1 + (runLoop envErr 2 ["b.png"] 1).fail,
           1 + (runLoop envErr 2 ["b.png"] 1).attempts⟩
      ∧ (errEvents (envErr.fileResult 0) (basename "d/a.png")).length = 1
      ∧ fileEvents 2 0 "d/a.png" (envErr.fileResult 0)
          = [Event.progress (pyProgress 0 2),
             Event.status (processingMsg 0 2 (basename "d/a.png"))]
              ++ errEvents (envErr.fileResult 0) (basename "d/a.png") :=
  C7_per_file_errors envErr 2 0 "d/a.png" ["b.png"] rfl (by decide)

set_option maxRecDepth 100000 in
/-- Claim C8 counterexample: in a run over fifty files the progress event
    emitted before the file at index 29 (event position 58, immediately
    before the processing status for that file at position 59) carries
    57, while floor of i divided by total times 100 is 58: the source
    computes int of the binary64 product (29 / 50) * 100, which is
    57.99999999999999 and truncates to 57. -/
theorem C8_cex :
    (run_conversion w50 env0).get? 58 = some (Event.progress 57)
      ∧ (run_conversion w50 env0).get? 59
          = some (Event.status "Processing (30/50): img.png")
      ∧ (57 : Nat) ≠ 29 * 100 / 50 := by
  refine ⟨by decide, by decide, by decide⟩

/-- Claim C8 as amended: for each attempted file at index i the run emits
    a progress event carrying int((i / total) * 100) evaluated in IEEE
    754 binary64 (pyProgress, which agrees with floor(i * 100 / total)
    except at rare rounding cases such as i = 29, total = 50), followed
    by a status message naming the file by basename only; after the loop
    a final progress event at 100 is emitted if and only if the flag was
    not cleared, and the completion event is the last event of the run. -/
theorem C8_progress_trace (w : Worker) (env : Env)
    (h1 : w.image_files ≠ []) (h2 : env.mkdirError = none) :
    run_conversion w env
        = (runLoop env w.image_files.length w.image_files 0).events
            ++ (if pollCancelled env.cancelAt w.image_files.length then []
                else [Event.progress 100])
            ++ [Event.finished
                  (runLoop env w.image_files.length w.image_files 0).succ
                  (runLoop env w.image_files.length w.image_files 0).fail]
      ∧ (∀ (f : String) (rest : List String) (i : Nat),
          pollCancelled env.cancelAt i = false →
            (runLoop env w.image_files.length (f :: rest) i).events
              = Event.progress (pyProgress i w.image_files.length)
                  :: Event.status (processingMsg i w.image_files.length (basename f))
                  :: (errEvents (env.fileResult i) (basename f)
                      ++ (runLoop env w.image_files.length rest (i + 1)).events))
      ∧ (run_conversion w env).getLast?
          = some (Event.finished
              (runLoop env w.image_files.length w.image_files 0).succ
              (runLoop env w.image_files.length w.image_files 0).fail) := by
  refine ⟨run_conversion_loop w env h1 h2, ?_, ?_⟩
  · intro f rest i hp
    simp only [runLoop, hp, Bool.false_eq_true, if_false]
    simp [fileEvents]
  · rw [run_conversion_loop w env h1 h2]
    exact getLast_append_one _ _

/-- Witness for C8: the whole-run trace equation at a concrete worker. -/
theorem C8_progress_trace_w :
    run_conversion w3 env0
      = (runLoop env0 w3.image_files.length w3.image_files 0).events
          ++ (if pollCancelled env0.cancelAt w3.image_files.length then []
              else [Event.progress 100])
          ++ [Event.finished
                (runLoop env0 w3.image_files.length w3.image_files 0).succ
                (runLoop env0 w3.image_files.length w3.image_files 0).fail] :=
  (C8_progress_trace w3 env0 (by decide) rfl).1

/-- Claim C2 counterexample: a three-pixel dimension shrunk with the
    Small factor 0.5 yields 1 in the code (int truncation of 1.5), while
    the claimed formula max(1, round(dimension times factor)) yields 2. -/
theorem C2_cex :
    (processImage ⟨"RGB", 3, 3⟩ "Small" 90).1.width = 1
      ∧ max 1 (round ((3 : ℚ) * resize_factor "Small")) = 2
      ∧ (1 : ℤ) ≠ 2 := by
  refine ⟨?_, ?_, by decide⟩
  · unfold processImage
    dsimp only
    rw [if_pos (show resize_factor "Small" ≠ 1 by rw [rf_small]; norm_num)]
    show newDim 3 (resize_factor "Small") = 1
    unfold newDim
    rw [rf_small]
    norm_num
  · rw [rf_small]
    norm_num [round_eq]

/-- Claim C2 as amended: for Small, Medium and Large the output
    dimensions are max(1, trunc(input dimension times factor)) - the
    fractional part is discarded by int truncation, not rounded to
    nearest - with the factor table Small one half, Medium three
    quarters, Large three halves; Original leaves dimensions unchanged. -/
theorem C2_truncated_resize (img : Img) (q : Nat) (so : String)
    (h : so = "Small" ∨ so = "Medium" ∨ so = "Large") :
    ((processImage img so q).1.width
        = max 1 (⌊(img.width : ℚ) * resize_factor so⌋).toNat
      ∧ (processImage img so q).1.height
        = max 1 (⌊(img.height : ℚ) * resize_factor so⌋).toNat)
      ∧ (resize_factor "Small" = 1 / 2 ∧ resize_factor "Medium" = 3 / 4
          ∧ resize_factor "Large" = 3 / 2)
      ∧ ((processImage img "Original" q).1.width = img.width
          ∧ (processImage img "Original" q).1.height = img.height) := by
  have hf : resize_factor so ≠ 1 := by
    rcases h with h | h | h <;> subst h
    · rw [rf_small]; norm_num
    · rw [rf_medium]; norm_num
    · rw [rf_large]; norm_num
  have horig : ¬(resize_factor "Original" ≠ 1) := by
    rw [rf_original]
    simp
  refine ⟨?_, ⟨rf_small, rf_medium, rf_large⟩, ?_⟩
  · unfold processImage
    dsimp only
    rw [if_pos hf]
    exact ⟨rfl, rfl⟩
  · unfold processImage
    dsimp only
    rw [if_neg horig]
    exact ⟨rfl, rfl⟩

/-- Witness for the amended C2 at a 3 by 5 image shrunk with Small. -/
theorem C2_truncated_resize_w :
    ((processImage ⟨"RGB", 3, 5⟩ "Small" 90).1.width
        = max 1 (⌊(((⟨"RGB", 3, 5⟩ : Img).width : ℚ)) * resize_factor "Small"⌋).toNat
      ∧ (processImage ⟨"RGB", 3, 5⟩ "Small" 90).1.height
        = max 1 (⌊(((⟨"RGB", 3, 5⟩ : Img).height : ℚ)) * resize_factor "Small"⌋).toNat)
      ∧ (resize_factor "Small" = 1 / 2 ∧ resize_factor "Medium" = 3 / 4
          ∧ resize_factor "Large" = 3 / 2)
      ∧ ((processImage ⟨"RGB", 3, 5⟩ "Original" 90).1.width = (⟨"RGB", 3, 5⟩ : Img).width
          ∧ (processImage ⟨"RGB", 3, 5⟩ "Original" 90).1.height
              = (⟨"RGB", 3, 5⟩ : Img).height) :=
  C2_truncated_resize ⟨"RGB", 3, 5⟩ 90 "Small" (Or.inl rfl)

/-- Claim C3: a converted file is saved with lossless set exactly when
    the configured quality value equals 100, and with the quality
    argument equal to the configured quality value (so any quality below
    100 encodes lossy at that value). -/
theorem C3_lossless_iff (img : Img) (so : String) (q : Nat) :
    ((processImage img so q).2.lossless = true ↔ q = 100)
      ∧ (processImage img so q).2.quality = q := by
  rw [processImage_save]
  exact ⟨by simp, rfl⟩

/-- Claim C9 counterexample: the code converts plain greyscale mode L at
    lossy quality to RGBA, although L is neither the palette mode P nor
    the greyscale-with-alpha mode LA, so the claim predicts it is left
    unchanged. -/
theorem C9_cex :
    convertedMode "L" 90 = "RGBA"
      ∧ "L" ≠ "P" ∧ "L" ≠ "LA" ∧ "RGBA" ≠ "L" := by
  decide

/-- Claim C9 as amended: at lossy quality (below 100) the source modes
    palette (P), plain greyscale (L) and greyscale-with-alpha (LA) are
    converted to RGBA; otherwise a CMYK source is converted to RGB; in
    all remaining cases (including P, L and LA at quality 100) the pixel
    mode is left unchanged. -/
theorem C9_mode_normalization (img : Img) (so : String) (q : Nat) :
    (((img.mode = "P" ∨ img.mode = "L" ∨ img.mode = "LA") ∧ q < 100) →
        (processImage img so q).1.mode = "RGBA")
      ∧ (img.mode = "CMYK" → (processImage img so q).1.mode = "RGB")
      ∧ ((¬((img.mode = "P" ∨ img.mode = "L" ∨ img.mode = "LA") ∧ q < 100)
            ∧ img.mode ≠ "CMYK") →
          (processImage img so q).1.mode = img.mode) := by
  refine ⟨fun h => ?_, fun h => ?_, fun h => ?_⟩
  · rw [processImage_mode]
    unfold convertedMode
    rw [if_pos h]
  · rw [processImage_mode]
    unfold convertedMode
    have hno : ¬((img.mode = "P" ∨ img.mode = "L" ∨ img.mode = "LA") ∧ q < 100) := by
      rintro ⟨hm | hm | hm, -⟩ <;> (rw [h] at hm; exact absurd hm (by decide))
    rw [if_neg hno, if_pos h]
  · rw [processImage_mode]
    unfold convertedMode
    rw [if_neg h.1, if_neg h.2]

/-- Witness for the amended C9 at a palette image and lossy quality. -/
theorem C9_mode_normalization_w :
    (processImage ⟨"P", 4, 4⟩ "Small" 50).1.mode = "RGBA" :=
  (C9_mode_normalization ⟨"P", 4, 4⟩ "Small" 50).1 ⟨Or.inl rfl, by decide⟩

/-- Claim C10: any size option other than Small, Medium and Large -
    including Original and every unrecognized string - keeps the default
    resize factor 1.0, and the resize branch is skipped, so the output
    dimensions equal the input dimensions. -/
theorem C10_default_factor (img : Img) (q : Nat) (so : String)
    (h1 : so ≠ "Small") (h2 : so ≠ "Medium") (h3 : so ≠ "Large") :
    resize_factor so = 1
      ∧ (processImage img so q).1.width = img.width
      ∧ (processImage img so q).1.height = img.height := by
  have hf : resize_factor so = 1 := by
    unfold resize_factor
    rw [if_neg h1, if_neg h2, if_neg h3]
  have hno : ¬(resize_factor so ≠ 1) := by
    rw [hf]
    simp
  refine ⟨hf, ?_, ?_⟩ <;>
    · unfold processImage
      dsimp only
      rw [if_neg hno]

/-- Witness for C10 at the Original size option. -/
theorem C10_default_factor_w :
    resize_factor "Original" = 1
      ∧ (processImage ⟨"RGB", 7, 5⟩ "Original" 90).1.width = (⟨"RGB", 7, 5⟩ : Img).width
      ∧ (processImage ⟨"RGB", 7, 5⟩ "Original" 90).1.height
          = (⟨"RGB", 7, 5⟩ : Img).height :=
  C10_default_factor ⟨"RGB", 7, 5⟩ 90 "Original" (by decide) (by decide) (by decide)

